import Mathlib

/-!
Verification of the capture-and-poll analysis workflow of the
property-intelligence mapping console.

The definitions below are a shallow embedding of the client-side job
state machine and its collaborators, translated from:

* `src/insuretech/client/src/components/ConstructionAnalysis.tsx`
* `src/insuretech/client/src/components/RoofAnalysis.tsx`
* `src/insuretech/client/src/services/constructionAnalysisApi.ts`
* `src/insuretech/client/src/components/PdfUploadDropzone.tsx`
* `src/unnamed/part_004` (a second dropzone variant with an abortable,
  self-rescheduling poll loop)

JavaScript numbers that carry fractional progress values are modelled as
rationals; integer progress values stored in component state are modelled
as integers.  JavaScript truthiness on strings (empty string is falsy) is
modelled explicitly by the helper functions below.
-/

/-- Phases of an analysis job, the `JobPhase` union type shared by
`ConstructionAnalysis.tsx` and `RoofAnalysis.tsx`. -/
inductive JobPhase where
  | idle
  | capturing
  | queued
  | processing
  | completed
  | error
deriving DecidableEq, Repr

/-- Phases of a PDF upload, the `UploadPhase` union type of
`PdfUploadDropzone.tsx` and `part_004`. -/
inductive UploadPhase where
  | idle
  | uploading
  | processing
  | completed
  | error
deriving DecidableEq, Repr

/-- The `JobState` record of `ConstructionAnalysis.tsx` / `RoofAnalysis.tsx`,
generic over the result payload type (the two components differ only in
that type and in message strings). -/
structure JobState (α : Type) where
  phase : JobPhase
  progress : Int
  message : String
  stage : Option String
  jobId : Option String
  error : Option String
  result : Option α
  lastUpdated : Option Nat
deriving DecidableEq, Repr

/-- The `initialJobState` constant of the analysis components. -/
def initialJobState {α : Type} : JobState α :=
  { phase := .idle
    progress := 0
    message := ""
    stage := none
    jobId := none
    error := none
    result := none
    lastUpdated := none }

/-- The `UploadState` record of `PdfUploadDropzone.tsx` / `part_004`,
generic over the result payload type. -/
structure UploadState (ρ : Type) where
  phase : UploadPhase
  uploadProgress : Int
  processingProgress : Int
  message : String
  error : Option String
  jobId : Option String
  fileName : Option String
  result : Option ρ
deriving DecidableEq, Repr

/-- JavaScript `Math.round`: round half toward positive infinity,
equal to the floor of the value plus one half. -/
def jround (q : ℚ) : Int :=
  ⌊q + 1/2⌋

/-- JavaScript `a || b` where `a` is an optional string: the empty string
is falsy and falls through to `b`. -/
def jsOrElse (a : Option String) (b : String) : String :=
  match a with
  | some s => if s = "" then b else s
  | none => b

/-- JavaScript `a || b` where both sides are optional strings. -/
def jsOrElseOpt (a b : Option String) : Option String :=
  match a with
  | some s => if s = "" then b else some s
  | none => b

/-- JavaScript `a || null` on an optional string field. -/
def jsOrNull (a : Option String) : Option String :=
  match a with
  | some s => if s = "" then none else some s
  | none => none

/-- JavaScript `a ?? b`: nullish coalescing on optional values. -/
def jsCoalesce {α : Type} (a b : Option α) : Option α :=
  match a with
  | some x => some x
  | none => b

/-- The `normalizeProgress` helper of `ConstructionAnalysis.tsx` (lines
69-79) and `RoofAnalysis.tsx` (lines 306-316).  A missing or non-numeric
value (modelled as `none`) yields the fallback; a value in the unit
interval is scaled by 100 and rounded; anything else is clamped into
`[0, 100]` and rounded. -/
def normalizeProgress (value : Option ℚ) (fallback : Int) : Int :=
  match value with
  | none => fallback
  | some v =>
      if v ≤ 1 ∧ 0 ≤ v then jround (v * 100)
      else jround (max 0 (min 100 v))

/-- The status switch at the top of the `poll` closure in `startPolling`
(`ConstructionAnalysis.tsx` lines 290-303, `RoofAnalysis.tsx` lines
393-406): every status other than the four known ones counts as still
processing. -/
def statusToPhase (status : String) : JobPhase :=
  if status = "queued" then .queued
  else if status = "processing" then .processing
  else if status = "completed" then .completed
  else if status = "failed" then .error
  else .processing

/-- The progress-endpoint response shape
(`ConstructionProgressResponse` in `constructionAnalysisApi.ts`). -/
structure ProgressResponse (α : Type) where
  job_id : Option String := none
  status : String
  stage : Option String := none
  progress : Option ℚ := none
  message : Option String := none
  result : Option α := none
  error : Option String := none
  timestamp : Option Nat := none
deriving DecidableEq, Repr

/-- The state update applied on a successful poll tick, from the
`setJobState` updater in `startPolling` (`ConstructionAnalysis.tsx` lines
305-315, `RoofAnalysis.tsx` lines 408-418): phase from the status switch,
progress normalized with the previous value as fallback, message and
stage merged with JavaScript `||`, error recomputed with `|| null`, and
the result merged with `??` so a null result never erases a previous
one. -/
def pollUpdate {α : Type} (jobId : String) (s : JobState α)
    (r : ProgressResponse α) (now : Nat) : JobState α :=
  { phase := statusToPhase r.status
    progress := normalizeProgress r.progress s.progress
    message := jsOrElse r.message s.message
    stage := jsOrElseOpt r.stage s.stage
    jobId := some jobId
    error := jsOrNull r.error
    result := jsCoalesce r.result s.result
    lastUpdated := some now }

/-- One successful poll tick together with the loop-control effect: after
the state update, `stopPolling` is called exactly when the reported
status is `completed` or `failed` (`ConstructionAnalysis.tsx` lines
317-319).  The boolean is the polling-active flag. -/
def pollTick {α : Type} (jobId : String) (p : JobState α × Bool)
    (r : ProgressResponse α) (now : Nat) : JobState α × Bool :=
  (pollUpdate jobId p.1 r now,
   if r.status = "completed" ∨ r.status = "failed" then false else p.2)

/-- A thrown JavaScript error as seen by a catch block: its `name` and
`message` properties.  An aborted fetch rejects with a `DOMException`
whose name is the string `AbortError`. -/
structure JsError where
  name : String
  message : String
deriving DecidableEq, Repr

/-- The catch handler of the `poll` closure in
`ConstructionAnalysis.tsx` (lines 320-332): it stops polling and moves
the job to the error phase with the thrown message, without inspecting
the error name, so an abort is treated like any other failure.
`RoofAnalysis.tsx` lines 423-435 are identical up to the message
string. -/
def constructionPollCatch {α : Type} (s : JobState α) (e : JsError)
    (now : Nat) : JobState α × Bool :=
  ({ s with
      phase := .error
      error := some e.message
      message := "Construction analysis progress failed"
      lastUpdated := some now }, false)

/-- The progress-endpoint response shape of the ACORD service
(`ProgressResponse` in `acordApi.ts`), used by both dropzone
variants. -/
structure AcordProgressResponse (ρ : Type) where
  status : String
  stage : Option String := none
  progress : Option ℚ := none
  message : Option String := none
  result : Option ρ := none
  error : Option String := none
deriving DecidableEq, Repr

/-- The catch handler of the `poll` closure in `part_004` (lines
157-178): after an unmount nothing happens; a thrown error whose name is
`AbortError` is swallowed with no state change; any other error stops
polling and records the failure. -/
def acordPollCatch {ρ : Type} (mounted : Bool) (e : JsError)
    (s : UploadState ρ) (active : Bool) : UploadState ρ × Bool :=
  if mounted = false then (s, active)
  else if e.name = "AbortError" then (s, active)
  else
    ({ s with
        phase := .error
        error := some e.message
        message := "Processing failed." }, false)

/-- Start time of poll tick `n` in the `setInterval`-driven loops
(`ConstructionAnalysis.tsx` line 336, `RoofAnalysis.tsx` line 439,
`PdfUploadDropzone.tsx` line 296): the first tick fires immediately and
the timer then fires every `PROGRESS_POLL_INTERVAL = 2500` milliseconds,
independently of whether the previous request has resolved. -/
def intervalTickStart (n : Nat) : Nat :=
  n * 2500

/-- Start time of poll tick `n` in the `setTimeout`-driven loop of
`part_004` (lines 147-156): the next tick is scheduled only inside the
`try` block after `await fetchProgress` resolves, `POLL_INTERVAL_MS =
4000` milliseconds after that resolution.  `dur n` is the latency of
request `n`. -/
def timeoutTickStart (dur : Nat → Nat) : Nat → Nat
  | 0 => 0
  | n + 1 => timeoutTickStart dur n + dur n + 4000

/-- Request `n` is outstanding at time `t` when `t` lies between the
start of tick `n` and its resolution, `dur n` milliseconds later. -/
def requestOutstanding (starts : Nat → Nat) (dur : Nat → Nat)
    (n t : Nat) : Prop :=
  starts n ≤ t ∧ t < starts n + dur n

instance (starts dur : Nat → Nat) (n t : Nat) :
    Decidable (requestOutstanding starts dur n t) := by
  unfold requestOutstanding
  infer_instance

/-- The elapsed-time ceiling check at the top of the `poll` closure in
`PdfUploadDropzone.tsx` (lines 120-121): `elapsed > MAX_WAIT_TIME` with
`MAX_WAIT_TIME = 300000` and `elapsed = Date.now() - startTime`. -/
def pdfTimeoutHit (startTime now : Nat) : Bool :=
  300000 < now - startTime

/-- One poll tick of `PdfUploadDropzone.tsx` `startPolling` (lines
113-299).  When the ceiling check fires, the job moves to the error
phase with the timeout message and the interval is cleared.  Otherwise
the response is processed: progress defaults to zero with `|| 0`, is
normalized exactly like `normalizeProgress`, and the first `setState`
records progress and message; a `completed` status then forces progress
to 100, stores the result and clears the error; a `failed` status stores
the failure; any other status leaves the interval running. -/
def pdfPollTick {ρ : Type} (startTime now : Nat)
    (r : AcordProgressResponse ρ) (s : UploadState ρ) (active : Bool) :
    UploadState ρ × Bool :=
  if pdfTimeoutHit startTime now then
    ({ s with phase := .error, error := some "Timeout after 5 minutes" },
     false)
  else
    let progressPct : ℚ := r.progress.getD 0
    let normalized : Int :=
      if progressPct ≤ 1 ∧ 0 ≤ progressPct then jround (progressPct * 100)
      else jround (max 0 (min 100 progressPct))
    let messageText := jsOrElse r.message ""
    let stageText := jsOrElse r.stage ""
    let s1 :=
      { s with
          processingProgress := normalized
          message :=
            if messageText ≠ "" then messageText
            else if stageText ≠ "" then stageText
            else s.message }
    if r.status = "completed" then
      ({ s1 with
          phase := .completed
          processingProgress := 100
          result := r.result
          error := none }, false)
    else if r.status = "failed" then
      ({ s1 with
          phase := .error
          error := some (jsOrElse r.error "Processing failed") }, false)
    else (s1, active)

/-- The state set by `beginUpload` in `PdfUploadDropzone.tsx` (lines
332-338) once the upload response arrives with job id `job-1` and no
message: phase `processing`, upload progress 100, default message. -/
def pdfPostUploadState : UploadState String :=
  { phase := .processing
    uploadProgress := 100
    processingProgress := 0
    message := "Upload complete. Processing..."
    error := none
    jobId := some "job-1"
    fileName := some "form.pdf"
    result := none }

/-- A progress response that only reports the `processing` status, as a
server may do on every tick. -/
def processingOnlyResponse : AcordProgressResponse String :=
  { status := "processing" }

/-- The dropzone polling run in which the server answers every tick
instantly with `processing`: tick `k` fires at `k * 2500` milliseconds
after the `startPolling` call (whose `startTime` is taken as 0), and
`pdfRunTicks n` is the state and polling-active flag after the first `n`
ticks. -/
def pdfRunTicks : Nat → UploadState String × Bool
  | 0 => (pdfPostUploadState, true)
  | n + 1 =>
      let p := pdfRunTicks n
      if p.2 then pdfPollTick 0 (intervalTickStart n) processingOnlyResponse p.1 p.2
      else p

/-- The `construction_type` section of the analysis payload
(`constructionAnalysisApi.ts` lines 22-30); every field optional. -/
structure ConstructionTypeSection where
  primary_structural_system : Option String := none
  wall_construction : Option String := none
  construction_class : Option String := none
  air_construction_code : Option String := none
  construction_confidence : Option String := none
  structural_indicators : Option (List String) := none
  analysis_reasoning : Option String := none
deriving DecidableEq, Repr

/-- The `occupancy_assessment` section (lines 32-40). -/
structure OccupancyAssessmentSection where
  primary_use : Option String := none
  secondary_uses : Option (List String) := none
  air_occupancy_code : Option String := none
  iso_occupancy_type : Option String := none
  occupancy_confidence : Option String := none
  use_indicators : Option (List String) := none
  analysis_reasoning : Option String := none
deriving DecidableEq, Repr

/-- The `physical_characteristics` section (lines 42-50). -/
structure PhysicalCharacteristicsSection where
  story_count : Option String := none
  estimated_height_feet : Option String := none
  building_width_estimate : Option String := none
  architectural_style : Option String := none
  notable_features : Option (List String) := none
  accessibility_features : Option (List String) := none
  analysis_reasoning : Option String := none
deriving DecidableEq, Repr

/-- The `construction_materials` section (lines 52-60). -/
structure ConstructionMaterialsSection where
  primary_wall_material : Option String := none
  secondary_materials : Option (List String) := none
  window_type : Option String := none
  material_quality : Option String := none
  visible_roof_material : Option String := none
  material_condition : Option String := none
  analysis_reasoning : Option String := none
deriving DecidableEq, Repr

/-- The `risk_factors` section (lines 62-70). -/
structure RiskFactorsSection where
  fire_risk_level : Option String := none
  nat_cat_vulnerabilities : Option (List String) := none
  proximity_hazards : Option (List String) := none
  security_level : Option String := none
  environmental_factors : Option (List String) := none
  overall_risk_profile : Option String := none
  analysis_reasoning : Option String := none
deriving DecidableEq, Repr

/-- The `age_condition` section (lines 72-80); the condition score may
be reported as a string or as a number. -/
structure AgeConditionSection where
  estimated_age_range : Option String := none
  condition_rating : Option String := none
  condition_score : Option (String ⊕ ℚ) := none
  maintenance_level : Option String := none
  renovation_indicators : Option (List String) := none
  deterioration_signs : Option (List String) := none
  analysis_reasoning : Option String := none
deriving DecidableEq, Repr

/-- The `insurance_classifications` section (lines 82-90). -/
structure InsuranceClassificationsSection where
  suggested_air_construction : Option String := none
  suggested_air_occupancy : Option String := none
  iso_occupancy_type : Option String := none
  rms_codes : Option String := none
  classification_confidence : Option String := none
  alternative_codes : Option (List String) := none
  analysis_reasoning : Option String := none
deriving DecidableEq, Repr

/-- The `underwriting_considerations` section (lines 92-98). -/
structure UnderwritingConsiderationsSection where
  key_strengths : Option (List String) := none
  key_concerns : Option (List String) := none
  recommended_inspections : Option (List String) := none
  coverage_considerations : Option (List String) := none
  pricing_factors : Option (List String) := none
deriving DecidableEq, Repr

/-- The `overall_assessment` section (lines 100-105). -/
structure OverallAssessmentSection where
  property_summary : Option String := none
  insurability : Option String := none
  key_recommendations : Option (List String) := none
  analysis_limitations : Option (List String) := none
deriving DecidableEq, Repr

/-- The `image_analysis_metadata` section (lines 107-113). -/
structure ImageMetadataSection where
  photo_quality : Option String := none
  viewing_angle : Option String := none
  lighting_conditions : Option String := none
  distance_from_building : Option String := none
  obstructions : Option (List String) := none
deriving DecidableEq, Repr

/-- The `building_analysis` object inside the analysis payload
(`ConstructionAnalysisPayload`, lines 115-128). -/
structure BuildingAnalysis where
  construction_type : Option ConstructionTypeSection := none
  occupancy_assessment : Option OccupancyAssessmentSection := none
  physical_characteristics : Option PhysicalCharacteristicsSection := none
  construction_materials : Option ConstructionMaterialsSection := none
  risk_factors : Option RiskFactorsSection := none
  age_condition : Option AgeConditionSection := none
  insurance_classifications : Option InsuranceClassificationsSection := none
  underwriting_considerations : Option UnderwritingConsiderationsSection := none
  overall_assessment : Option OverallAssessmentSection := none
  image_analysis_metadata : Option ImageMetadataSection := none
deriving DecidableEq, Repr

/-- The analysis payload wrapper (lines 115-128). -/
structure ConstructionAnalysisPayload where
  building_analysis : Option BuildingAnalysis := none
deriving DecidableEq, Repr

/-- The `artifacts` object on a result (lines 133-138). -/
structure ConstructionArtifacts where
  image_path : Option String := none
  analysis_path : Option String := none
  report_path : Option String := none
  report_absolute_path : Option String := none
deriving DecidableEq, Repr

/-- The `report_status` union (line 140). -/
inductive ReportStatus where
  | pending
  | available
  | failed
  | disabled
deriving DecidableEq, Repr

/-- The `ConstructionAnalysisResult` record (lines 130-142). -/
structure ConstructionAnalysisResult where
  model_id : String
  analysis : Option ConstructionAnalysisPayload := none
  artifacts : Option ConstructionArtifacts := none
  report_generated_at : Option String := none
  report_status : Option ReportStatus := none
  report_error : Option String := none
deriving DecidableEq, Repr

/-- A viewport-pixel rectangle, the `Bounds` record of
`ConstructionAnalysis.tsx` lines 19-24. -/
structure Bounds where
  x : ℚ
  y : ℚ
  width : ℚ
  height : ℚ
deriving DecidableEq, Repr

/-- The mutable pieces of the `ConstructionAnalysis` component relevant
to cancellation: the job state, the `selectedBounds` state, whether the
polling interval and abort controller are live, and whether the parent
keeps the drawing overlay active (the `onOverlayCancel` callback is
wired to `stopConstructionAnalysisOverlay` in `MapView.tsx`, which sets
the overlay flag to false). -/
structure ConstructionComponentState where
  job : JobState ConstructionAnalysisResult
  selectedBounds : Option Bounds
  pollingActive : Bool
  overlayActive : Bool
deriving DecidableEq, Repr

/-- The `cancelDrawingOnly` callback of `ConstructionAnalysis.tsx`
(lines 254-267): stop polling, recompute phase, progress, message and
stage from whether a result exists, unconditionally clear the job id and
the error, clear the selected bounds, and tell the parent to deactivate
the drawing overlay. -/
def cancelDrawingOnly (s : ConstructionComponentState) :
    ConstructionComponentState :=
  { job :=
      { s.job with
          phase := if s.job.result.isSome then .completed else .idle
          progress := if s.job.result.isSome then 100 else 0
          message :=
            if s.job.result.isSome then "Construction analysis ready" else ""
          stage := if s.job.result.isSome then s.job.stage else none
          jobId := none
          error := none }
    selectedBounds := none
    pollingActive := false
    overlayActive := false }

/-- The guard of the first cancellation effect in
`ConstructionAnalysis.tsx` (lines 535-539): `cancelDrawingOnly` runs
whenever the overlay is active while street view is not visible,
regardless of the job phase. -/
def externalCancelTriggered (overlayActive isStreetViewVisible : Bool) :
    Bool :=
  overlayActive && !isStreetViewVisible

/-- The guard of the second cancellation effect (lines 541-547):
`cancelDrawingOnly` runs when the overlay has just been deactivated and
the job is still in the capturing phase. -/
def overlayExitCancelTriggered (previousOverlay overlayActive : Bool)
    (phase : JobPhase) : Bool :=
  previousOverlay && !overlayActive && decide (phase = JobPhase.capturing)

/-- The guard of `handleReportDownload` (`ConstructionAnalysis.tsx`
lines 341-350): with a falsy job id (null, or an empty string) the
handler returns without requesting anything; otherwise it downloads the
report for that id.  The returned value is the id the download request
is issued for. -/
def requestsReportDownload (s : ConstructionComponentState) :
    Option String :=
  match s.job.jobId with
  | none => none
  | some id => if id = "" then none else some id

/-- The state set at the start of a capture, `ConstructionAnalysis.tsx`
lines 421-430. -/
def capturingState {α : Type} (now : Nat) : JobState α :=
  { phase := .capturing
    progress := 10
    message := "Capturing building selection..."
    stage := some "capturing"
    jobId := none
    error := none
    result := none
    lastUpdated := some now }

/-- The state update after the raster capture resolves and just before
the upload call, `ConstructionAnalysis.tsx` lines 486-493. -/
def submitUpdate {α : Type} (s : JobState α) (now : Nat) : JobState α :=
  { s with
      phase := .queued
      progress := 15
      message := "Submitting selection to construction analysis service..."
      stage := some "queued"
      lastUpdated := some now }

/-- The upload response shape (`StartAnalysisResponse` in
`constructionAnalysisApi.ts` lines 16-20). -/
structure StartAnalysisResponse where
  job_id : String
  status : Option String := none
  message : Option String := none
deriving DecidableEq, Repr

/-- The state update after `startConstructionAnalysis` resolves,
`ConstructionAnalysis.tsx` lines 497-507: phase `queued` only when the
server said exactly `queued`, progress 20, job id recorded, error
cleared. -/
def uploadSuccessUpdate {α : Type} (s : JobState α)
    (r : StartAnalysisResponse) (now : Nat) : JobState α :=
  { s with
      phase := if r.status = some "queued" then .queued else .processing
      progress := 20
      message := jsOrElse r.message "Image queued for construction analysis"
      stage := some (jsOrElse r.status "queued")
      jobId := some r.job_id
      error := none
      lastUpdated := some now }

/-- The environment read by `handleDrawComplete` before any asynchronous
work: the two configuration flags from `useConstructionAnalysisApiConfig`,
availability of the container ref and of the `.gm-style` map element,
and the geometry of the map element relative to the container
(`ConstructionAnalysis.tsx` lines 432-435). -/
structure DrawEnv where
  apiConfigured : Bool
  hasToken : Bool
  containerReady : Bool
  mapElementFound : Bool
  offsetX : ℚ
  offsetY : ℚ
  mapWidth : ℚ
  mapHeight : ℚ
deriving DecidableEq, Repr

/-- The capture-region computation of `handleDrawComplete`
(`ConstructionAnalysis.tsx` lines 437-460, `RoofAnalysis.tsx` lines
509-532): shift the drawn rectangle by the map offset, clamp each edge
into `[0, mapWidth]` and `[0, mapHeight]`, and rebuild a rectangle from
the clamped edges. -/
def toClampedBounds (env : DrawEnv) (bounds : Bounds) : Bounds :=
  let cx := bounds.x - env.offsetX
  let cy := bounds.y - env.offsetY
  let clampStartX := min (max 0 cx) env.mapWidth
  let clampStartY := min (max 0 cy) env.mapHeight
  let clampEndX := min (max 0 (cx + bounds.width)) env.mapWidth
  let clampEndY := min (max 0 (cy + bounds.height)) env.mapHeight
  { x := clampStartX
    y := clampStartY
    width := clampEndX - clampStartX
    height := clampEndY - clampStartY }

/-- Outcome of the synchronous prefix of `handleDrawComplete`: either an
early return that leaves the job in a terminal error state, with neither
the raster capture nor the upload performed, or the decision to call
`html2canvas` on a clamped region while the job sits in the capturing
state. -/
inductive DrawSyncResult where
  | rejected (job : JobState ConstructionAnalysisResult)
  | proceed (job : JobState ConstructionAnalysisResult) (clamped : Bounds)
deriving DecidableEq, Repr

/-- The synchronous prefix of `handleDrawComplete`
(`ConstructionAnalysis.tsx` lines 370-470): configuration, container and
map-element guards first, each short-circuiting to an error state
without any network call; then the clamped capture region is computed
and a degenerate region (non-positive width or height) is rejected with
the selection-outside-map error before `html2canvas` is reached. -/
def handleDrawCompleteSync (env : DrawEnv) (bounds : Bounds) (now : Nat) :
    DrawSyncResult :=
  if env.apiConfigured = false then
    .rejected
      { initialJobState with
          phase := .error
          error := some
            "Construction analysis API is not configured. Set VITE_CONSTRUCTION_ANALYSIS_API_BASE_URL."
          message := "Construction analysis API not configured" }
  else if env.hasToken = false then
    .rejected
      { initialJobState with
          phase := .error
          error := some
            "Missing construction analysis API token. Set VITE_CONSTRUCTION_ANALYSIS_API_TOKEN."
          message := "Missing API token" }
  else if env.containerReady = false then
    .rejected
      { initialJobState with
          phase := .error
          error := some "Map view is not ready for capture."
          message := "Map is not ready" }
  else if env.mapElementFound = false then
    .rejected
      { initialJobState with
          phase := .error
          error := some "Unable to locate the Google Maps canvas for capture."
          message := "Google Maps element not found" }
  else if (toClampedBounds env bounds).width ≤ 0 ∨
      (toClampedBounds env bounds).height ≤ 0 then
    .rejected
      { initialJobState with
          phase := .error
          error := some "Selection must stay within the map view. Please try again."
          message := "Selection outside map bounds" }
  else
    .proceed (capturingState now) (toClampedBounds env bounds)

/-- Whether the synchronous prefix reaches the `html2canvas` raster
capture call. -/
def captureCalled : DrawSyncResult → Bool
  | .rejected _ => false
  | .proceed _ _ => true

/-- Whether the flow reaches the `startConstructionAnalysis` upload
call: the upload sits after `await html2canvas` inside the proceed
branch, so it is attempted exactly when the prefix proceeded and the
capture then succeeded. -/
def uploadAttempted : DrawSyncResult → Bool → Bool
  | .rejected _, _ => false
  | .proceed _ _, captureSucceeded => captureSucceeded

/-- JavaScript `String.prototype.trim` on the configured values. -/
def jsTrim (s : String) : String :=
  ⟨((s.data.dropWhile Char.isWhitespace).reverse.dropWhile
      Char.isWhitespace).reverse⟩

/-- The trailing-slash strip applied to the raw base URL
(`constructionAnalysisApi.ts` line 4). -/
def stripTrailingSlashes (s : String) : String :=
  ⟨(s.data.reverse.dropWhile (fun c => c = '/')).reverse⟩

/-- The environment configuration read by `constructionAnalysisApi.ts`
(lines 3-14): a raw base URL and the ordered token candidates. -/
structure ConstructionApiEnv where
  rawBaseUrl : String
  tokenCandidates : List String
deriving DecidableEq, Repr

/-- The computed `API_BASE_URL` (line 4): trimmed raw value with
trailing slashes removed. -/
def apiBaseUrl (env : ConstructionApiEnv) : String :=
  stripTrailingSlashes (jsTrim env.rawBaseUrl)

/-- The computed `API_TOKEN` (lines 12-14): the first candidate whose
trimmed value is non-empty, defaulting to the empty string. -/
def apiToken (env : ConstructionApiEnv) : String :=
  ((env.tokenCandidates.map jsTrim).find? (fun v => v ≠ "")).getD ""

/-- The `buildHeaders` helper (lines 159-165): the bearer header is
attached exactly when the resolved token is non-empty. -/
def buildHeaders (env : ConstructionApiEnv)
    (additional : List (String × String)) : List (String × String) :=
  if apiToken env = "" then additional
  else additional ++ [("Authorization", "Bearer " ++ apiToken env)]

/-- The server response to the upload request, as the client consumes
it: HTTP success flag and status, the body text used for error messages,
and the parsed JSON fields. -/
structure HttpStartResponse where
  ok : Bool
  status : Nat
  text : String
  job_id : Option String := none
  statusField : Option String := none
  messageField : Option String := none
deriving DecidableEq, Repr

/-- Result of a `startConstructionAnalysis` call: a thrown error message
or the parsed response. -/
inductive StartResult where
  | failure (message : String)
  | success (response : StartAnalysisResponse)
deriving DecidableEq, Repr

/-- Result of a call to the job client together with whether a network
request was issued before the call settled. -/
structure StartOutcome where
  result : StartResult
  fetchCalled : Bool
deriving DecidableEq, Repr

/-- The `missingBaseUrlError` message of `constructionAnalysisApi.ts`
(lines 155-157). -/
def missingBaseUrlMessage : String :=
  "Construction analysis API base URL is not configured. Set VITE_CONSTRUCTION_ANALYSIS_API_BASE_URL in your environment."

/-- The `startConstructionAnalysis` operation
(`constructionAnalysisApi.ts` lines 167-191).  An empty computed base
URL throws the configuration error before `fetch`; nothing is checked
about the token.  Once the request is made, a non-2xx response throws
the body text (or a generic message), a 2xx response without a truthy
`job_id` throws the missing-job-id error, and otherwise the parsed
response is returned. -/
def startConstructionAnalysis (env : ConstructionApiEnv)
    (resp : HttpStartResponse) : StartOutcome :=
  if apiBaseUrl env = "" then
    { result := .failure missingBaseUrlMessage, fetchCalled := false }
  else if resp.ok = false then
    { result := .failure
        (if resp.text = "" then
          "Construction analysis request failed (" ++ toString resp.status ++ ")"
        else resp.text)
      fetchCalled := true }
  else
    match resp.job_id with
    | none =>
        { result := .failure "Construction analysis API did not return a job ID"
          fetchCalled := true }
    | some id =>
        if id = "" then
          { result := .failure "Construction analysis API did not return a job ID"
            fetchCalled := true }
        else
          { result := .success
              { job_id := id, status := resp.statusField,
                message := resp.messageField }
            fetchCalled := true }

/-- The progress-normalization rule as the specification words it: a
value in `[0, 1]` is scaled by 100 and rounded, anything else is clamped
into `[0, 100]` and rounded.  Stated separately so the source helper can
be compared against it. -/
def specNormalizeProgress (v : ℚ) : Int :=
  if 0 ≤ v ∧ v ≤ 1 then jround (v * 100)
  else jround (max 0 (min 100 v))

/-- Fold a list of timed poll responses through `pollTick`, starting
from a job state and polling-active flag. -/
def runConstructionPolls {α : Type} (jobId : String)
    (p : JobState α × Bool) :
    List (ProgressResponse α × Nat) → JobState α × Bool
  | [] => p
  | (r, t) :: rest => runConstructionPolls jobId (pollTick jobId p r t) rest

/-- A concrete completed-analysis payload. -/
def samplePayload : ConstructionAnalysisResult :=
  { model_id := "model-a" }

/-- The job state after capture, submit and a successful upload whose
response was status `queued` for job id `job-9`: phase `queued` with
progress 20, reconstructed through the same updaters the component
runs. -/
def postUploadJobState : JobState ConstructionAnalysisResult :=
  uploadSuccessUpdate (submitUpdate (capturingState 0) 1)
    { job_id := "job-9", status := some "queued" } 2

/-- The poll sequence of the specification scenario: a bare `queued`
tick, a `processing` tick at progress one half, then a `completed` tick
carrying the result but no progress field. -/
def scenarioResponses :
    List (ProgressResponse ConstructionAnalysisResult × Nat) :=
  [({ status := "queued" }, 3),
   ({ status := "processing", progress := some (1/2) }, 4),
   ({ status := "completed", result := some samplePayload }, 5)]

/-- A request-latency profile in which every poll request takes 3000
milliseconds to resolve, slower than the 2500 millisecond interval. -/
def slowRequestDurations : Nat → Nat :=
  fun _ => 3000

/-- A job mid-processing with no result yet: polling live, overlay
active, job id assigned. -/
def midProcessingState : ConstructionComponentState :=
  { job :=
      { phase := .processing
        progress := 40
        message := "Analyzing"
        stage := some "invoking_model"
        jobId := some "job-7"
        error := none
        result := none
        lastUpdated := some 50 }
    selectedBounds := some { x := 1, y := 2, width := 30, height := 40 }
    pollingActive := true
    overlayActive := true }

/-- A processing job state as the poll loop sees it when its request is
aborted mid-flight. -/
def midPollJobState : JobState ConstructionAnalysisResult :=
  { phase := .processing
    progress := 40
    message := "Analyzing"
    stage := some "invoking_model"
    jobId := some "job-3"
    error := none
    result := none
    lastUpdated := some 10 }

/-- The error an aborted fetch rejects with: a `DOMException` named
`AbortError`. -/
def abortError : JsError :=
  { name := "AbortError", message := "The user aborted a request." }

/-- A configuration with a usable base URL but every token candidate
blank. -/
def tokenlessEnv : ConstructionApiEnv :=
  { rawBaseUrl := "https://api.example.com", tokenCandidates := ["", "", ""] }

/-- A successful upload response carrying a job id. -/
def okStartResponse : HttpStartResponse :=
  { ok := true, status := 200, text := "",
    job_id := some "job-1", statusField := some "queued" }

/-- A fully-ready draw environment with a 100 by 100 map element. -/
def offMapEnv : DrawEnv :=
  { apiConfigured := true, hasToken := true, containerReady := true,
    mapElementFound := true, offsetX := 0, offsetY := 0,
    mapWidth := 100, mapHeight := 100 }

/-- A drag rectangle lying entirely to the lower right of the visible
map element. -/
def offMapBounds : Bounds :=
  { x := 200, y := 200, width := 50, height := 50 }

/-- A draw environment with a configured base URL but no token. -/
def noTokenDrawEnv : DrawEnv :=
  { apiConfigured := true, hasToken := false, containerReady := true,
    mapElementFound := true, offsetX := 0, offsetY := 0,
    mapWidth := 100, mapHeight := 100 }

/-- A configuration whose raw base URL is blank space only. -/
def blankBaseUrlEnv : ConstructionApiEnv :=
  { rawBaseUrl := "   ", tokenCandidates := [] }

/-- Evaluation rule for `jround`: the rounded value is `n` whenever the
shifted value lies in `[n, n + 1)`. -/
theorem jround_eval (q : ℚ) (n : ℤ) (h1 : (n : ℚ) ≤ q + 1/2)
    (h2 : q + 1/2 < n + 1) : jround q = n := by
  unfold jround
  rw [Int.floor_eq_iff]
  exact ⟨h1, by exact_mod_cast h2⟩

/-- Evaluation of `normalizeProgress` on the fractional value one
half. -/
theorem normalizeProgress_half (fallback : Int) :
    normalizeProgress (some (1/2)) fallback = 50 := by
  simp only [normalizeProgress]
  rw [if_pos (by norm_num)]
  exact jround_eval _ 50 (by norm_num) (by norm_num)

/-- C1: on every poll-tick state update, a previously stored non-null
result is kept whenever the incoming response carries a null or absent
result, because the update merges with nullish coalescing. -/
theorem c1_poll_merge_preserves_result {α : Type} (jobId : String)
    (s : JobState α) (r : ProgressResponse α) (now : Nat) (v : α)
    (hs : s.result = some v) (hr : r.result = none) :
    (pollUpdate jobId s r now).result = some v := by
  simp [pollUpdate, jsCoalesce, hr, hs]

/-- C1 witness: a processing tick with no result leaves a stored sample
payload in place. -/
theorem c1_poll_merge_preserves_result_witness :
    (pollUpdate "job-1"
        { (initialJobState : JobState ConstructionAnalysisResult) with
            result := some samplePayload }
        { status := "processing" } 5).result = some samplePayload :=
  c1_poll_merge_preserves_result "job-1" _ _ 5 samplePayload rfl rfl

/-- C2 counterexample: in the construction-analysis poll loop, an
aborted in-flight request (the rejection is a `DOMException` named
`AbortError`) falls into the catch handler, which unconditionally moves
the job to the error phase and stores the abort message that the panel
then renders — the cancellation is not a silent no-op. -/
theorem c2_abort_reaches_error_phase :
    abortError.name = "AbortError" ∧
    (constructionPollCatch midPollJobState abortError 11).1.phase
      = JobPhase.error ∧
    (constructionPollCatch midPollJobState abortError 11).1.error
      = some "The user aborted a request." ∧
    (constructionPollCatch midPollJobState abortError 11).1.message
      = "Construction analysis progress failed" := by
  decide

/-- C2 amended: only the dropzone variant of the poll loop
(`part_004`) swallows an aborted request as a silent no-op; the
construction (and roof) analysis catch handler moves the job to the
error phase with the thrown message on every throw, aborts included. -/
theorem c2_amended_abort_swallowed_only_in_dropzone :
    (∀ (ρ : Type) (s : UploadState ρ) (active : Bool) (e : JsError),
        e.name = "AbortError" →
          acordPollCatch true e s active = (s, active)) ∧
    (∀ (α : Type) (s : JobState α) (e : JsError) (now : Nat),
        (constructionPollCatch s e now).1.phase = JobPhase.error ∧
        (constructionPollCatch s e now).1.error = some e.message ∧
        (constructionPollCatch s e now).2 = false) := by
  constructor
  · intro ρ s active e he
    simp [acordPollCatch, he]
  · intro α s e now
    exact ⟨rfl, rfl, rfl⟩

/-- C2 amended witness: the dropzone catch leaves the post-upload state
untouched on an abort. -/
theorem c2_amended_witness :
    acordPollCatch true abortError pdfPostUploadState true
      = (pdfPostUploadState, true) :=
  c2_amended_abort_swallowed_only_in_dropzone.1 String
    pdfPostUploadState true abortError rfl

/-- C3 counterexample: the `setInterval`-driven construction loop fires
tick 1 at 2500 milliseconds whether or not tick 0 has resolved, so with
a 3000 millisecond request latency both requests are outstanding at
2600 milliseconds — two overlapping poll requests for one job. -/
theorem c3_interval_ticks_overlap :
    requestOutstanding intervalTickStart slowRequestDurations 0 2600 ∧
    requestOutstanding intervalTickStart slowRequestDurations 1 2600 := by
  decide

/-- C3 amended: the serialized single-outstanding-request property holds
for the `setTimeout`-driven loop of `part_004`, where tick `n + 1` is
scheduled 4000 milliseconds after tick `n` resolves, so every earlier
request has resolved before a later one starts; the `setInterval` loops
of the analysis components do not have this property. -/
theorem c3_amended_dropzone_serializes_requests :
    (∀ (dur : Nat → Nat) (n : Nat),
        timeoutTickStart dur (n + 1)
          = timeoutTickStart dur n + dur n + 4000) ∧
    (∀ (dur : Nat → Nat) (m n : Nat), m < n →
        timeoutTickStart dur m + dur m ≤ timeoutTickStart dur n) := by
  constructor
  · intro dur n
    rfl
  · intro dur m n h
    induction n with
    | zero => omega
    | succ k ih =>
        rcases Nat.lt_succ_iff_lt_or_eq.mp h with h2 | h2
        · have hk := ih h2
          have hstep : timeoutTickStart dur (k + 1)
              = timeoutTickStart dur k + dur k + 4000 := rfl
          omega
        · subst h2
          have hstep : timeoutTickStart dur (m + 1)
              = timeoutTickStart dur m + dur m + 4000 := rfl
          omega

/-- C3 amended witness: with every request taking 3000 milliseconds,
request 0 has resolved before request 1 starts in the dropzone loop. -/
theorem c3_amended_witness :
    timeoutTickStart slowRequestDurations 0 + slowRequestDurations 0
      ≤ timeoutTickStart slowRequestDurations 1 :=
  c3_amended_dropzone_serializes_requests.2 slowRequestDurations 0 1
    (by decide)

/-- C4 counterexample: the external-cancel trigger fires whenever the
overlay is active outside street view, in any phase; applied to a
processing job without a result it resets the phase to idle, clears the
job id and stops polling — the job is destroyed, not preserved. -/
theorem c4_external_cancel_resets_processing_job :
    externalCancelTriggered true false = true ∧
    midProcessingState.job.phase = JobPhase.processing ∧
    (cancelDrawingOnly midProcessingState).job.phase = JobPhase.idle ∧
    ¬ (cancelDrawingOnly midProcessingState).job.phase
        = JobPhase.processing ∧
    (cancelDrawingOnly midProcessingState).job.jobId = none ∧
    (cancelDrawingOnly midProcessingState).pollingActive = false := by
  decide

/-- C4 amended: an external cancellation always tears the drawing UI
down (overlay off, bounds cleared, polling stopped) and preserves only
the stored result; the phase is recomputed — completed when a result
exists, idle otherwise — and the job id is cleared, so completed
results survive but queued or processing jobs without a result are
reset, not preserved. -/
theorem c4_amended_cancel_preserves_only_result :
    ∀ s : ConstructionComponentState,
      (cancelDrawingOnly s).job.result = s.job.result ∧
      (cancelDrawingOnly s).overlayActive = false ∧
      (cancelDrawingOnly s).selectedBounds = none ∧
      (cancelDrawingOnly s).pollingActive = false ∧
      (cancelDrawingOnly s).job.jobId = none ∧
      (cancelDrawingOnly s).job.phase
        = (if s.job.result.isSome then JobPhase.completed
           else JobPhase.idle) := by
  intro s
  exact ⟨rfl, rfl, rfl, rfl, rfl, rfl⟩

/-- C5 counterexample: over the scenario poll sequence (queued, then
processing at one half, then completed with no progress field) the job
does finish completed with the payload and a cleared error, but the
stored progress is the 50 retained from the previous tick, not 100 —
completion does not force progress to 100 in the analysis
components. -/
theorem c5_completed_tick_keeps_previous_progress :
    (runConstructionPolls "job-9" (postUploadJobState, true)
        scenarioResponses).1.phase = JobPhase.completed ∧
    (runConstructionPolls "job-9" (postUploadJobState, true)
        scenarioResponses).1.result = some samplePayload ∧
    (runConstructionPolls "job-9" (postUploadJobState, true)
        scenarioResponses).1.error = none ∧
    (runConstructionPolls "job-9" (postUploadJobState, true)
        scenarioResponses).1.progress = 50 ∧
    ¬ (runConstructionPolls "job-9" (postUploadJobState, true)
        scenarioResponses).1.progress = 100 := by
  have hnone : ∀ f : Int, normalizeProgress none f = f := fun _ => rfl
  simp only [scenarioResponses, runConstructionPolls, pollTick, pollUpdate,
    statusToPhase, hnone, normalizeProgress_half, jsOrElse, jsOrElseOpt,
    jsOrNull, jsCoalesce, postUploadJobState, uploadSuccessUpdate,
    submitUpdate, capturingState, initialJobState]
  decide

/-- C5 amended: a completed poll response moves the job to the
completed phase and stops polling; the error is recomputed from the
response (cleared when the response carries none); the progress is
normalized from the response when present and otherwise retains its
previous value — it is not forced to 100. -/
theorem c5_amended_completed_transition {α : Type} (jobId : String)
    (s : JobState α) (b : Bool) (r : ProgressResponse α) (now : Nat)
    (hc : r.status = "completed") :
    (pollTick jobId (s, b) r now).1.phase = JobPhase.completed ∧
    (pollTick jobId (s, b) r now).2 = false ∧
    (r.error = none → (pollTick jobId (s, b) r now).1.error = none) ∧
    (r.progress = none →
        (pollTick jobId (s, b) r now).1.progress = s.progress) ∧
    (∀ v : ℚ, r.progress = some v →
        (pollTick jobId (s, b) r now).1.progress
          = normalizeProgress (some v) s.progress) := by
  refine ⟨?_, ?_, ?_, ?_, ?_⟩
  · simp [pollTick, pollUpdate, statusToPhase, hc]
  · simp [pollTick, hc]
  · intro he
    simp [pollTick, pollUpdate, jsOrNull, he]
  · intro hp
    simp [pollTick, pollUpdate, normalizeProgress, hp]
  · intro v hp
    simp [pollTick, pollUpdate, hp]

/-- C5 amended witness: a bare completed response after upload keeps
the previous progress of 20 while completing and stopping. -/
theorem c5_amended_witness :
    (pollTick "job-9" (postUploadJobState, true)
        ({ status := "completed" } :
          ProgressResponse ConstructionAnalysisResult) 5).1.phase
      = JobPhase.completed ∧
    (pollTick "job-9" (postUploadJobState, true)
        ({ status := "completed" } :
          ProgressResponse ConstructionAnalysisResult) 5).1.progress
      = postUploadJobState.progress ∧
    (pollTick "job-9" (postUploadJobState, true)
        ({ status := "completed" } :
          ProgressResponse ConstructionAnalysisResult) 5).2 = false := by
  have h := c5_amended_completed_transition "job-9" postUploadJobState
    true { status := "completed" } 5 rfl
  exact ⟨h.1, h.2.2.2.1 rfl, h.2.1⟩

/-- C6: the source normalization helper agrees, on every numeric input,
with the rule as the specification states it, and the four quoted
instances evaluate as claimed: 0.42 to 42, 85 to 85, 142 to 100
(clamped), and -5 to 0 (clamped). -/
theorem c6_normalize_matches_spec :
    (∀ (v : ℚ) (fallback : Int),
        normalizeProgress (some v) fallback = specNormalizeProgress v) ∧
    specNormalizeProgress (42/100) = 42 ∧
    specNormalizeProgress 85 = 85 ∧
    specNormalizeProgress 142 = 100 ∧
    specNormalizeProgress (-5) = 0 := by
  refine ⟨?_, ?_, ?_, ?_, ?_⟩
  · intro v fallback
    simp only [normalizeProgress, specNormalizeProgress]
    by_cases h : 0 ≤ v ∧ v ≤ 1
    · rw [if_pos ⟨h.2, h.1⟩, if_pos h]
    · rw [if_neg (fun hc => h ⟨hc.2, hc.1⟩), if_neg h]
  · unfold specNormalizeProgress
    rw [if_pos (by norm_num)]
    exact jround_eval _ 42 (by norm_num) (by norm_num)
  · unfold specNormalizeProgress
    rw [if_neg (by norm_num)]
    have hm : max 0 (min 100 (85 : ℚ)) = 85 := by
      norm_num [min_def, max_def]
    rw [hm]
    exact jround_eval _ 85 (by norm_num) (by norm_num)
  · unfold specNormalizeProgress
    rw [if_neg (by norm_num)]
    have hm : max 0 (min 100 (142 : ℚ)) = 100 := by
      norm_num [min_def, max_def]
    rw [hm]
    exact jround_eval _ 100 (by norm_num) (by norm_num)
  · unfold specNormalizeProgress
    rw [if_neg (by norm_num)]
    have hm : max 0 (min 100 (-5 : ℚ)) = 0 := by
      norm_num [min_def, max_def]
    rw [hm]
    exact jround_eval _ 0 (by norm_num) (by norm_num)

/-- C7: when the configuration, container and map element are all in
place but the clamped capture region is degenerate (non-positive width
or height), `handleDrawComplete` rejects with the
selection-must-stay-within-the-map-view error before the raster capture
is reached, and the upload can never be attempted on that path. -/
theorem c7_degenerate_region_rejected_before_capture
    (env : DrawEnv) (bounds : Bounds) (now : Nat)
    (hcfg : env.apiConfigured = true) (htok : env.hasToken = true)
    (hcont : env.containerReady = true) (hmap : env.mapElementFound = true)
    (hdeg : (toClampedBounds env bounds).width ≤ 0 ∨
        (toClampedBounds env bounds).height ≤ 0) :
    handleDrawCompleteSync env bounds now
      = DrawSyncResult.rejected
          { initialJobState with
              phase := .error
              error := some "Selection must stay within the map view. Please try again."
              message := "Selection outside map bounds" } ∧
    captureCalled (handleDrawCompleteSync env bounds now) = false ∧
    (∀ captureSucceeded : Bool,
        uploadAttempted (handleDrawCompleteSync env bounds now)
          captureSucceeded = false) ∧
    List.IsInfix ("must stay within the map view").data
      ("Selection must stay within the map view. Please try again.").data := by
  have hmain : handleDrawCompleteSync env bounds now
      = DrawSyncResult.rejected
          { initialJobState with
              phase := .error
              error := some "Selection must stay within the map view. Please try again."
              message := "Selection outside map bounds" } := by
    unfold handleDrawCompleteSync
    rw [if_neg (by simp [hcfg]), if_neg (by simp [htok]),
      if_neg (by simp [hcont]), if_neg (by simp [hmap]), if_pos hdeg]
  refine ⟨hmain, ?_, ?_, by decide⟩
  · rw [hmain]
    rfl
  · intro captureSucceeded
    rw [hmain]
    rfl

/-- C7 witness: a 50 by 50 drag at viewport position (200, 200) over a
100 by 100 map element with zero offset clamps to a zero-width region
and is rejected before capture. -/
theorem c7_witness :
    handleDrawCompleteSync offMapEnv offMapBounds 3
      = DrawSyncResult.rejected
          { initialJobState with
              phase := .error
              error := some "Selection must stay within the map view. Please try again."
              message := "Selection outside map bounds" } ∧
    captureCalled (handleDrawCompleteSync offMapEnv offMapBounds 3)
      = false := by
  have h := c7_degenerate_region_rejected_before_capture offMapEnv
    offMapBounds 3 rfl rfl rfl rfl
    (by left; norm_num [toClampedBounds, offMapEnv, offMapBounds,
      min_def, max_def])
  exact ⟨h.1, h.2.1⟩

/-- C8 counterexample: with a configured base URL but every token
candidate blank, the job client start operation does not fail before the
network — the fetch is issued (without a bearer header) and, on a good
server response, the call succeeds, so a missing token alone is not a
pre-network configuration failure of `startConstructionAnalysis`. -/
theorem c8_missing_token_does_not_block_fetch :
    apiToken tokenlessEnv = "" ∧
    (startConstructionAnalysis tokenlessEnv okStartResponse).fetchCalled
      = true ∧
    (startConstructionAnalysis tokenlessEnv okStartResponse).result
      = StartResult.success { job_id := "job-1", status := some "queued" } := by
  decide

/-- C8 amended: the pre-network configuration check of the job client
covers only the base URL: an empty computed base URL fails before any
fetch with a message containing the words not configured, while a set
base URL always reaches the network whatever the token; a blank token
merely drops the bearer header.  The missing-token case is instead
rejected by the component draw handler, before capture and upload, with
its own missing-token message. -/
theorem c8_amended_config_check_only_for_base_url :
    (∀ (env : ConstructionApiEnv) (resp : HttpStartResponse),
        apiBaseUrl env = "" →
          startConstructionAnalysis env resp
            = { result := .failure missingBaseUrlMessage,
                fetchCalled := false }) ∧
    List.IsInfix ("not configured").data missingBaseUrlMessage.data ∧
    (∀ (env : ConstructionApiEnv) (resp : HttpStartResponse),
        ¬ apiBaseUrl env = "" →
          (startConstructionAnalysis env resp).fetchCalled = true) ∧
    (∀ (env : ConstructionApiEnv) (additional : List (String × String)),
        apiToken env = "" → buildHeaders env additional = additional) ∧
    (∀ (env : DrawEnv) (bounds : Bounds) (now : Nat),
        env.apiConfigured = true → env.hasToken = false →
          handleDrawCompleteSync env bounds now
            = DrawSyncResult.rejected
                { initialJobState with
                    phase := .error
                    error := some "Missing construction analysis API token. Set VITE_CONSTRUCTION_ANALYSIS_API_TOKEN."
                    message := "Missing API token" } ∧
          captureCalled (handleDrawCompleteSync env bounds now) = false) := by
  refine ⟨?_, by decide, ?_, ?_, ?_⟩
  · intro env resp h
    simp [startConstructionAnalysis, h]
  · intro env resp h
    unfold startConstructionAnalysis
    rw [if_neg h]
    split
    · rfl
    · split
      · rfl
      · split <;> rfl
  · intro env additional h
    simp [buildHeaders, h]
  · intro env bounds now h1 h2
    have hmain : handleDrawCompleteSync env bounds now
        = DrawSyncResult.rejected
            { initialJobState with
                phase := .error
                error := some "Missing construction analysis API token. Set VITE_CONSTRUCTION_ANALYSIS_API_TOKEN."
                message := "Missing API token" } := by
      unfold handleDrawCompleteSync
      rw [if_neg (by simp [h1]), if_pos h2]
    refine ⟨hmain, ?_⟩
    rw [hmain]
    rfl

/-- C8 amended witness: a blank base URL fails pre-network; the
tokenless configuration reaches the network with bare headers; the
tokenless draw handler rejects before capture. -/
theorem c8_amended_witness :
    startConstructionAnalysis blankBaseUrlEnv okStartResponse
      = { result := .failure missingBaseUrlMessage, fetchCalled := false } ∧
    (startConstructionAnalysis tokenlessEnv okStartResponse).fetchCalled
      = true ∧
    buildHeaders tokenlessEnv [] = [] ∧
    handleDrawCompleteSync noTokenDrawEnv offMapBounds 0
      = DrawSyncResult.rejected
          { initialJobState with
              phase := .error
              error := some "Missing construction analysis API token. Set VITE_CONSTRUCTION_ANALYSIS_API_TOKEN."
              message := "Missing API token" } := by
  refine ⟨?_, ?_, ?_, ?_⟩
  · exact c8_amended_config_check_only_for_base_url.1 blankBaseUrlEnv
      okStartResponse (by decide)
  · exact c8_amended_config_check_only_for_base_url.2.2.1 tokenlessEnv
      okStartResponse (by decide)
  · exact c8_amended_config_check_only_for_base_url.2.2.2.1 tokenlessEnv
      [] (by decide)
  · exact (c8_amended_config_check_only_for_base_url.2.2.2.2 noTokenDrawEnv
      offMapBounds 0 rfl rfl).1

/-- A poll tick of the dropzone loop on a bare processing response,
before the ceiling: the only state change is the processing progress
being recomputed (to zero here, since the response carries no progress
field) and polling stays live. -/
theorem pdfTick_processing (startTime now : Nat) (s : UploadState String)
    (active : Bool) (h : pdfTimeoutHit startTime now = false) :
    pdfPollTick startTime now processingOnlyResponse s active
      = ({ s with processingProgress := 0 }, active) := by
  have h0 : jround ((0 : ℚ) * 100) = 0 :=
    jround_eval _ 0 (by norm_num) (by norm_num)
  have h0b : jround (0 : ℚ) = 0 :=
    jround_eval _ 0 (by norm_num) (by norm_num)
  have hc1 : ((0 : ℚ) ≤ 1) := by norm_num
  unfold pdfPollTick
  rw [h]
  simp [processingOnlyResponse, jsOrElse, h0, h0b, hc1]

/-- A poll tick of the dropzone loop once the elapsed-time ceiling check
fires: the response is not consulted, the job moves to the error phase
with the timeout message, and the interval is cleared. -/
theorem pdfTick_timeout {ρ : Type} (startTime now : Nat)
    (r : AcordProgressResponse ρ) (s : UploadState ρ) (active : Bool)
    (h : pdfTimeoutHit startTime now = true) :
    pdfPollTick startTime now r s active
      = ({ s with
            phase := .error
            error := some "Timeout after 5 minutes" }, false) := by
  unfold pdfPollTick
  rw [h]
  simp

/-- Every tick of the all-processing dropzone run up to and including
the one firing at exactly 300000 milliseconds leaves the job processing
with polling live. -/
theorem pdfRun_stable : ∀ n : Nat, n ≤ 121 →
    pdfRunTicks n = (pdfPostUploadState, true) := by
  intro n
  induction n with
  | zero => intro _; rfl
  | succ k ih =>
      intro hk
      have hks : pdfRunTicks k = (pdfPostUploadState, true) := ih (by omega)
      have hto : pdfTimeoutHit 0 (intervalTickStart k) = false := by
        simp only [pdfTimeoutHit, intervalTickStart, decide_eq_false_iff_not]
        omega
      show (let p := pdfRunTicks k;
        if p.2 then
          pdfPollTick 0 (intervalTickStart k) processingOnlyResponse p.1 p.2
        else p) = (pdfPostUploadState, true)
      rw [hks]
      simpa using pdfTick_processing 0 (intervalTickStart k)
        pdfPostUploadState true hto

/-- C9 counterexample: with the server answering processing on every
tick, the tick that fires at exactly the five-minute mark (tick 120, at
300000 milliseconds after the first) does not trip the strict
elapsed-greater-than-ceiling check: after it the job is still in the
processing phase with no error and polling still live, so the job does
not transition to the error phase at the claimed instant. -/
theorem c9_no_timeout_at_exactly_five_minutes :
    intervalTickStart 120 = 300000 ∧
    (pdfRunTicks 121).1.phase = UploadPhase.processing ∧
    (pdfRunTicks 121).1.error = none ∧
    (pdfRunTicks 121).2 = true := by
  have h := pdfRun_stable 121 (by omega)
  rw [h]
  exact ⟨by decide, rfl, rfl, rfl⟩

/-- C9 amended: the timeout transition happens on the first tick whose
elapsed time strictly exceeds 300000 milliseconds — with the 2500
millisecond interval that is the tick at 302500 milliseconds after the
first — and there the job moves to the error phase with the message
Timeout after 5 minutes and polling stops; at exactly 300000
milliseconds elapsed the check does not fire. -/
theorem c9_amended_timeout_on_first_tick_past_ceiling :
    (∀ t0 : Nat, pdfTimeoutHit t0 (t0 + 300000) = false) ∧
    (∀ t0 : Nat, pdfTimeoutHit t0 (t0 + 302500) = true) ∧
    (∀ (ρ : Type) (t0 : Nat) (r : AcordProgressResponse ρ)
        (s : UploadState ρ) (active : Bool),
        pdfPollTick t0 (t0 + 302500) r s active
          = ({ s with
                phase := .error
                error := some "Timeout after 5 minutes" }, false)) ∧
    (pdfRunTicks 122).1.phase = UploadPhase.error ∧
    (pdfRunTicks 122).1.error = some "Timeout after 5 minutes" ∧
    (pdfRunTicks 122).2 = false := by
  have htrue : ∀ t0 : Nat, pdfTimeoutHit t0 (t0 + 302500) = true := by
    intro t0
    simp only [pdfTimeoutHit, decide_eq_true_eq]
    omega
  have hrun : pdfRunTicks 122
      = ({ pdfPostUploadState with
            phase := .error
            error := some "Timeout after 5 minutes" }, false) := by
    have h121 := pdfRun_stable 121 (by omega)
    have hto : pdfTimeoutHit 0 (intervalTickStart 121) = true := by
      simp only [pdfTimeoutHit, intervalTickStart, decide_eq_true_eq]
      omega
    show (let p := pdfRunTicks 121;
      if p.2 then
        pdfPollTick 0 (intervalTickStart 121) processingOnlyResponse p.1 p.2
      else p)
      = ({ pdfPostUploadState with
            phase := .error
            error := some "Timeout after 5 minutes" }, false)
    rw [h121]
    simpa using pdfTick_timeout 0 (intervalTickStart 121)
      processingOnlyResponse pdfPostUploadState true hto
  refine ⟨?_, htrue, ?_, ?_, ?_, ?_⟩
  · intro t0
    simp only [pdfTimeoutHit, decide_eq_false_iff_not]
    omega
  · intro ρ t0 r s active
    exact pdfTick_timeout t0 (t0 + 302500) r s active (htrue t0)
  · rw [hrun]
  · rw [hrun]
  · rw [hrun]

/-- C10: a drawing cancel leaves the stored result untouched but
unconditionally clears the job id and the error and the selected
bounds; the phase and progress are recomputed to completed with 100
exactly when a result exists and to idle with 0 otherwise; and with the
job id gone the report-download handler refuses to issue any request,
even for a completed job. -/
theorem c10_cancel_clears_id_keeps_result :
    ∀ s : ConstructionComponentState,
      (cancelDrawingOnly s).job.result = s.job.result ∧
      (cancelDrawingOnly s).job.jobId = none ∧
      (cancelDrawingOnly s).job.error = none ∧
      (cancelDrawingOnly s).selectedBounds = none ∧
      (cancelDrawingOnly s).job.phase
        = (if s.job.result.isSome then JobPhase.completed
           else JobPhase.idle) ∧
      (cancelDrawingOnly s).job.progress
        = (if s.job.result.isSome then (100 : Int) else 0) ∧
      requestsReportDownload (cancelDrawingOnly s) = none := by
  intro s
  exact ⟨rfl, rfl, rfl, rfl, rfl, rfl, rfl⟩
